import Mathlib

/-!
# Verification of the PDF-analysis workflow (`function_app.py`)

Shallow embedding of the workflow application: four analysis activities
(text, metadata, statistics, sensitive-pattern detection), the report
reducer, the Table-Storage result store, the fan-out/fan-in orchestrator
and the HTTP query endpoint.

Modelling conventions:
* The PDF parsing library (`pypdf.PdfReader`) is an external collaborator.
  A successful parse is a `PdfDoc` (per-page extracted text, where a page
  may yield `none`, mirroring `page.extract_text()` returning `None`, and
  an optional metadata record).  A parse fault is `Except.error msg`
  carrying the exception text, so each activity takes the shared parse
  outcome `Except String PdfDoc` as input.
* Python dicts/lists/values returned by activities are embedded as `Json`
  values; numbers are rationals (Python float arithmetic on the small
  exact values involved: division results are modelled exactly).
* Effects become explicit inputs: `uuid.uuid4()` and
  `datetime.utcnow().isoformat()` inside `generate_report` become the
  `freshId`/`nowIso` arguments representing the values those calls drew;
  storage/read faults of the Azure table client become `Option String`
  fault-injection arguments.
* `json.dumps`/`json.loads` are a bijective encode/decode pair on the
  values involved; entity fields hold the `Json` value itself, factoring
  that bijection out (the round-trip claim is stated modulo it).
* The `re.findall` calls of `detect_sensitive_data` are runs of Python's
  regex engine; the embedding abstracts them as a supplied function
  `findall : RegexKind → String → List String` (no claim depends on the
  match semantics, only on the failure branch which never reaches them).
-/

/-- JSON-like values: the shape of every Python dict/list the app builds. -/
inductive Json where
  | null : Json
  | bool (b : Bool) : Json
  | num (q : ℚ) : Json
  | str (s : String) : Json
  | arr (xs : List Json) : Json
  | obj (kvs : List (String × Json)) : Json

/-- `d.get(key, default)` on a Python dict embedded as `Json.obj`. -/
def jsonGetD (j : Json) (key : String) (dflt : Json) : Json :=
  match j with
  | Json.obj kvs =>
    match kvs.find? (fun kv => kv.1 == key) with
    | some kv => kv.2
    | none => dflt
  | _ => dflt

/-- The keys of a `Json.obj` (insertion order), `[]` otherwise. -/
def jsonKeys : Json → List String
  | Json.obj kvs => kvs.map Prod.fst
  | _ => []

/-- Document-level metadata as surfaced by `reader.metadata`
(`pypdf.DocumentInformation`): each descriptive field may be absent. -/
structure PdfMeta where
  title : Option String
  author : Option String
  creator : Option String
  producer : Option String
  creation_date : Option String
  modification_date : Option String
deriving DecidableEq

/-- A successfully parsed PDF: the per-page `page.extract_text()` outcomes
(`none` when the library returns `None`) and the optional metadata record
(`reader.metadata` can be `None`). -/
structure PdfDoc where
  pages : List (Option String)
  meta : Option PdfMeta
deriving DecidableEq

/-- `page.extract_text() or ""`. -/
def pageText (p : Option String) : String := p.getD ""

/-- Python `str.split()` with no argument: whitespace-delimited tokens,
no empties. -/
def pyWords (s : String) : List String :=
  (s.split (fun c => c.isWhitespace)).filter (fun w => w ≠ "")

/-- The four `re.findall` pattern classes of `detect_sensitive_data`. -/
inductive RegexKind where
  | emails | phones | urls | dates
deriving DecidableEq

/-- ACTIVITY `extract_text` (function_app.py:148-175).
Total function of the parse outcome: both branches return a payload, so
the activity never raises past its boundary. -/
def extract_text (parseResult : Except String PdfDoc) : Json :=
  match parseResult with
  | Except.ok doc =>
    let all_text := (doc.pages.map pageText).filter (fun t => t ≠ "")
    Json.obj [
      ("hasText", Json.bool (!all_text.isEmpty)),
      ("extractedText", Json.str (String.intercalate "\n" all_text)),
      ("confidence", Json.num 0),
      ("language", Json.str "unknown")]
  | Except.error e =>
    Json.obj [
      ("hasText", Json.bool false),
      ("extractedText", Json.str ""),
      ("confidence", Json.num 0),
      ("error", Json.str e)]

/-- The exception text of the `AttributeError` raised by
`None.isoformat()` / attribute access on a `None` metadata object
(modelled message; only its non-emptiness matters). -/
def noneAttrError : String := "NoneType object has no attribute"

/-- The failure-shaped metadata payload. -/
def metaFailure (e : String) : Json :=
  Json.obj [("title", Json.str ""), ("author", Json.str ""), ("error", Json.str e)]

/-- `Option String` rendered as the Python value flowing into the dict
(`None` or the string). -/
def optStr : Option String → Json
  | some s => Json.str s
  | none => Json.null

/-- ACTIVITY `extract_metadata` (function_app.py:178-200).
The success dict calls `metadata.creation_date.isoformat()` and
`metadata.modification_date.isoformat()`; when `reader.metadata` is `None`
or either date is `None`, the attribute access raises inside the `try`
and the `except` branch returns the failure shape. -/
def extract_metadata (parseResult : Except String PdfDoc) : Json :=
  match parseResult with
  | Except.error e => metaFailure e
  | Except.ok doc =>
    match doc.meta with
    | none => metaFailure noneAttrError
    | some m =>
      match m.creation_date, m.modification_date with
      | some cd, some md =>
        Json.obj [
          ("title", optStr m.title),
          ("author", optStr m.author),
          ("creator", optStr m.creator),
          ("producer", optStr m.producer),
          ("creation_date", Json.str cd),
          ("mod_date", Json.str md)]
      | none, _ => metaFailure noneAttrError
      | some _, none => metaFailure noneAttrError

/-- `page_count` of a parsed document: `len(reader.pages)`. -/
def statsPageCount (doc : PdfDoc) : Nat := doc.pages.length

/-- The concatenated text `analyze_statistics` builds:
`all_text += (page.extract_text() or "") + "\n"` over all pages. -/
def statsAllText (doc : PdfDoc) : String :=
  String.join (doc.pages.map (fun p => pageText p ++ "\n"))

/-- `word_count`: `len(all_text.split())`. -/
def statsWordCount (doc : PdfDoc) : Nat := (pyWords (statsAllText doc)).length

/-- ACTIVITY `analyze_statistics` (function_app.py:204-236).
`avg_words_per_page = word_count / page_count if page_count else 0`
with Python true division, modelled in `ℚ`. -/
def analyze_statistics (parseResult : Except String PdfDoc) : Json :=
  match parseResult with
  | Except.ok doc =>
    let page_count := statsPageCount doc
    let word_count := statsWordCount doc
    let avg_words_per_page : ℚ := if page_count ≠ 0 then (word_count : ℚ) / page_count else 0
    let reading_time_minutes : ℚ := (word_count : ℚ) / 200
    Json.obj [
      ("page_count", Json.num page_count),
      ("word_count", Json.num word_count),
      ("avg_words_per_page", Json.num avg_words_per_page),
      ("estimated_reading_time_min", Json.num reading_time_minutes)]
  | Except.error e =>
    Json.obj [
      ("page_count", Json.num 0),
      ("word_count", Json.num 0),
      ("avg_words_per_page", Json.num 0),
      ("estimated_reading_time_min", Json.num 0),
      ("error", Json.str e)]

/-- The concatenated text `detect_sensitive_data` scans (same shape as
`statsAllText`: `text += (page.extract_text() or "") + "\n"`). -/
def sensText (doc : PdfDoc) : String :=
  String.join (doc.pages.map (fun p => pageText p ++ "\n"))

/-- ACTIVITY `detect_sensitive_data` (function_app.py:239-288).
The four `re.findall` runs are the external regex engine, supplied as
`findall`; the failure branch returns the empty-shaped payload. -/
def detect_sensitive_data (findall : RegexKind → String → List String)
    (parseResult : Except String PdfDoc) : Json :=
  match parseResult with
  | Except.ok doc =>
    let text := sensText doc
    Json.obj [
      ("emails", Json.arr ((findall RegexKind.emails text).map Json.str)),
      ("phones", Json.arr ((findall RegexKind.phones text).map Json.str)),
      ("urls", Json.arr ((findall RegexKind.urls text).map Json.str)),
      ("dates", Json.arr ((findall RegexKind.dates text).map Json.str))]
  | Except.error e =>
    Json.obj [
      ("emails", Json.arr []),
      ("phones", Json.arr []),
      ("urls", Json.arr []),
      ("dates", Json.arr []),
      ("error", Json.str e)]

/-- The Report dict built by `generate_report` (fixed keys, embedded as a
structure; `reportJson` below recovers the dict shape). -/
structure Report where
  id : String
  fileName : String
  blobPath : String
  analyzedAt : String
  text : Json
  metadata : Json
  statistics : Json
  sensitive_data : Json
  summary : Json

/-- `blob_name.split("/")[-1] if "/" in blob_name else blob_name`. -/
def lastPathSegment (blob_name : String) : String :=
  if blob_name.contains '/' then (blob_name.splitOn "/").getLastD blob_name
  else blob_name

/-- ACTIVITY `generate_report` (function_app.py:296-321).
`freshId` and `nowIso` are the values drawn by the `str(uuid.uuid4())`
and `datetime.utcnow().isoformat()` calls made inside the activity body
on this invocation. -/
def generate_report (freshId nowIso : String) (blob_name : String)
    (text metadata statistics sensitive_data : Json) : Report :=
  { id := freshId
    fileName := lastPathSegment blob_name
    blobPath := blob_name
    analyzedAt := nowIso
    text := text
    metadata := metadata
    statistics := statistics
    sensitive_data := sensitive_data
    summary := Json.obj [
      ("format", jsonGetD metadata "format" (Json.str "Unknown")),
      ("hasText", jsonGetD text "hasText" (Json.bool false))] }

/-- The Report dict as `generate_report` literally returns it
(key insertion order of function_app.py:303-318). -/
def reportJson (r : Report) : Json :=
  Json.obj [
    ("id", Json.str r.id),
    ("fileName", Json.str r.fileName),
    ("blobPath", Json.str r.blobPath),
    ("analyzedAt", Json.str r.analyzedAt),
    ("analyses", Json.obj [
      ("text", r.text),
      ("metadata", r.metadata),
      ("statistics", r.statistics),
      ("sensitive_data", r.sensitive_data)]),
    ("summary", r.summary)]

/-- A Table Storage entity as `store_results` writes it
(function_app.py:340-350): flat fields plus the `json.dumps`-encoded
sub-objects, the encoding factored out (the fields hold the `Json`
value the dumped string encodes). -/
structure Entity where
  partitionKey : String
  rowKey : String
  fileName : String
  blobPath : String
  analyzedAt : String
  summary : Json
  textAnalysis : Json
  metadataAnalysis : Json

/-- The entity `store_results` builds from a report. Note only the text
and metadata analyses are serialized; statistics and sensitive_data are
not part of the entity. -/
def entityOf (r : Report) : Entity :=
  { partitionKey := "PDFAnalysis"
    rowKey := r.id
    fileName := r.fileName
    blobPath := r.blobPath
    analyzedAt := r.analyzedAt
    summary := r.summary
    textAnalysis := r.text
    metadataAnalysis := r.metadata }

/-- Key coincidence test for upsert/lookup: same PartitionKey and RowKey. -/
def sameKey (e x : Entity) : Bool :=
  x.partitionKey == e.partitionKey && x.rowKey == e.rowKey

/-- `table_client.upsert_entity(entity)`: replace the entity sharing the
two-part key when present, insert otherwise. -/
def upsertEntity (table : List Entity) (e : Entity) : List Entity :=
  if table.any (sameKey e) then table.map (fun x => if sameKey e x then e else x)
  else table ++ [e]

/-- The status dict `store_results` returns on the success path
(function_app.py:356-362). -/
def storeStatus (r : Report) : Json :=
  Json.obj [
    ("id", Json.str r.id),
    ("fileName", Json.str r.fileName),
    ("status", Json.str "stored"),
    ("analyzedAt", Json.str r.analyzedAt),
    ("summary", r.summary)]

/-- The error dict `store_results` returns when storage faults
(function_app.py:364-370). -/
def storeError (r : Report) (e : String) : Json :=
  Json.obj [
    ("id", Json.str r.id),
    ("status", Json.str "error"),
    ("error", Json.str e)]

/-- ACTIVITY `store_results` (function_app.py:331-370): upserts the
flattened entity and returns the status dict; a storage fault
(`storageFault = some e`) leaves the table unchanged and returns the
error dict without raising past the boundary. -/
def store_results (storageFault : Option String) (table : List Entity)
    (report : Report) : List Entity × Json :=
  match storageFault with
  | some e => (table, storeError report e)
  | none => (upsertEntity table (entityOf report), storeStatus report)

/-- An HTTP response: status code and JSON body. -/
structure HttpResponse where
  status : Nat
  body : Json

/-- `table_client.get_entity(partition_key="PDFAnalysis", row_key=id)`:
first entity matching both keys. -/
def findEntity (table : List Entity) (id : String) : Option Entity :=
  table.find? (fun x => x.partitionKey == "PDFAnalysis" && x.rowKey == id)

/-- The reconstituted result dict of the single-result path
(function_app.py:398-408): JSON fields decoded; only the text and
metadata analyses exist in the entity, so `analyses` has two keys. -/
def retrievedJson (e : Entity) : Json :=
  Json.obj [
    ("id", Json.str e.rowKey),
    ("fileName", Json.str e.fileName),
    ("blobPath", Json.str e.blobPath),
    ("analyzedAt", Json.str e.analyzedAt),
    ("summary", e.summary),
    ("analyses", Json.obj [
      ("text", e.textAnalysis),
      ("metadata", e.metadataAnalysis)])]

/-- `GET /api/results/{id}` (function_app.py:390-421).
`clientFault` models `get_table_client()` raising (caught by the outer
handler, status 500); `readFault` models any other exception raised
inside the inner `try` (a storage fault of `get_entity` or a
`json.loads` fault) — the inner `except Exception` turns every such
fault, and absence (`ResourceNotFoundError`), into the 404 response. -/
def get_results_single (clientFault readFault : Option String)
    (table : List Entity) (id : String) : HttpResponse :=
  match clientFault with
  | some e => { status := 500, body := Json.obj [("error", Json.str e)] }
  | none =>
    match readFault with
    | some _ =>
      { status := 404
        body := Json.obj [("error", Json.str ("Result not found: " ++ id))] }
    | none =>
      match findEntity table id with
      | none =>
        { status := 404
          body := Json.obj [("error", Json.str ("Result not found: " ++ id))] }
      | some e => { status := 200, body := retrievedJson e }

/-- One element of the collection listing (function_app.py:431-436). -/
structure ListItem where
  id : String
  fileName : String
  analyzedAt : String
  summary : Json

/-- Projection of an entity to a listing element. -/
def toListItem (e : Entity) : ListItem :=
  { id := e.rowKey
    fileName := e.fileName
    analyzedAt := e.analyzedAt
    summary := e.summary }

/-- `query_entities(query_filter="PartitionKey eq 'PDFAnalysis'")`. -/
def queryPartition (table : List Entity) : List Entity :=
  table.filter (fun e => e.partitionKey == "PDFAnalysis")

/-- The sort relation of `results.sort(key=..., reverse=True)`: newest
analyzedAt first (timestamps are ISO strings, compared as strings). -/
def newerFirst (a b : ListItem) : Prop := b.analyzedAt ≤ a.analyzedAt

instance : DecidableRel newerFirst := fun a b =>
  inferInstanceAs (Decidable (b.analyzedAt ≤ a.analyzedAt))

instance : IsTotal ListItem newerFirst :=
  ⟨fun a b => (le_total b.analyzedAt a.analyzedAt).elim Or.inl Or.inr⟩

instance : IsTrans ListItem newerFirst :=
  ⟨fun _ _ _ h1 h2 => le_trans h2 h1⟩

/-- Python slicing `xs[:n]` for an `int` n: the first `n` elements when
`0 ≤ n`, and all but the last `-n` elements (clamped at the empty list)
when `n < 0`. -/
def pySlice {α : Type} (xs : List α) (n : Int) : List α :=
  if 0 ≤ n then xs.take n.toNat else xs.take (xs.length - (-n).toNat)

/-- The collection listing (function_app.py:422-440): scan the
partition, project, sort by analyzedAt descending (Python's stable sort,
realised as a stable insertion sort), slice to the limit.
`limitParam.getD 10` is `int(req.params.get("limit", "10"))`. -/
def listResults (table : List Entity) (limitParam : Option Int) : List ListItem :=
  pySlice (List.insertionSort newerFirst ((queryPartition table).map toListItem))
    (limitParam.getD 10)

/-- A listing element as the response JSON renders it. -/
def itemJson (x : ListItem) : Json :=
  Json.obj [
    ("id", Json.str x.id),
    ("fileName", Json.str x.fileName),
    ("analyzedAt", Json.str x.analyzedAt),
    ("summary", x.summary)]

/-- `GET /api/results` (function_app.py:422-446): the 200 response with
`{count, results}` (faults of the table client go to the outer 500
handler exactly as in `get_results_single`). -/
def get_results_list (clientFault : Option String) (table : List Entity)
    (limitParam : Option Int) : HttpResponse :=
  match clientFault with
  | some e => { status := 500, body := Json.obj [("error", Json.str e)] }
  | none =>
    let results := listResults table limitParam
    { status := 200
      body := Json.obj [
        ("count", Json.num results.length),
        ("results", Json.arr (results.map itemJson))] }

/-- The fan-out list of the orchestrator (function_app.py:108-113), as a
function from task index to that activity's result on the run's input:
index 0 `extract_text`, 1 `extract_metadata`, 2 `analyze_statistics`,
3 `detect_sensitive_data`. -/
def analysisActivities (findall : RegexKind → String → List String)
    (parseResult : Except String PdfDoc) : Fin 4 → Json
  | 0 => extract_text parseResult
  | 1 => extract_metadata parseResult
  | 2 => analyze_statistics parseResult
  | 3 => detect_sensitive_data findall parseResult

/-- The durable runtime recording task completions: tasks finish in the
order given by `order`, each writing its result into the slot of its own
task index. -/
def runTasks (f : Fin 4 → Json) (order : List (Fin 4))
    (slots : Fin 4 → Option Json) : Fin 4 → Option Json :=
  match order with
  | [] => slots
  | i :: rest => runTasks f rest (fun j => if j = i then some (f i) else slots j)

/-- `yield context.task_all(analysis_tasks)` (function_app.py:118): once
every task has completed (in whatever order), the collected results are
read out slot by slot in task-index order — never in arrival order. -/
def task_all (f : Fin 4 → Json) (order : List (Fin 4)) : List Json :=
  let slots := runTasks f order (fun _ => none)
  [(slots 0).getD Json.null, (slots 1).getD Json.null,
   (slots 2).getD Json.null, (slots 3).getD Json.null]

/-- The fan-in of `pdf_analyzer_orchestrator` (function_app.py:108-124):
the task list is built in the fixed source order and `task_all` yields
the collected results. -/
def pdf_analyzer_orchestrator_fanIn (findall : RegexKind → String → List String)
    (parseResult : Except String PdfDoc) (order : List (Fin 4)) : List Json :=
  task_all (analysisActivities findall parseResult) order

/-- The whole orchestrator run (function_app.py:96-145): fan-out/fan-in,
then the chained `generate_report` and `store_results` steps.
`freshId`/`nowIso` are the values the reduce step draws; the pair
returned is the final table state and the run's output `record`. -/
def pdf_analyzer_orchestrator (findall : RegexKind → String → List String)
    (parseResult : Except String PdfDoc) (order : List (Fin 4))
    (blob_name freshId nowIso : String) (storageFault : Option String)
    (table : List Entity) : List Entity × Json :=
  let results := pdf_analyzer_orchestrator_fanIn findall parseResult order
  let report := generate_report freshId nowIso blob_name
    (results.getD 0 Json.null) (results.getD 1 Json.null)
    (results.getD 2 Json.null) (results.getD 3 Json.null)
  store_results storageFault table report

/-- The caller-independent part of a report: every field except the
internally drawn `id` and `analyzedAt`. -/
def reportCore (r : Report) : String × String × Json × Json × Json × Json × Json :=
  (r.fileName, r.blobPath, r.text, r.metadata, r.statistics, r.sensitive_data, r.summary)

/-- A regex engine returning no matches (fixture for concrete runs). -/
def noFindall : RegexKind → String → List String := fun _ _ => []

/-- A small parsed document (fixture). -/
def sampleDoc : PdfDoc :=
  { pages := [some "hi a@b.com", none]
    meta := some
      { title := some "T"
        author := some "A"
        creator := none
        producer := none
        creation_date := some "2024-01-01T00:00:00"
        modification_date := some "2024-01-02T00:00:00" } }

/-- The report the reduce step builds from `sampleDoc`'s four actual
analysis outcomes (fixture). -/
def sampleReport : Report :=
  generate_report "rid-1" "2024-05-01T12:00:00" "pdf/sample.pdf"
    (extract_text (Except.ok sampleDoc))
    (extract_metadata (Except.ok sampleDoc))
    (analyze_statistics (Except.ok sampleDoc))
    (detect_sensitive_data noFindall (Except.ok sampleDoc))

/-- Stored entity with the older timestamp (fixture). -/
def entOld : Entity :=
  { partitionKey := "PDFAnalysis"
    rowKey := "r1"
    fileName := "a.pdf"
    blobPath := "pdf/a.pdf"
    analyzedAt := "2024-01-01T00:00:00"
    summary := Json.obj [("format", Json.str "Unknown"), ("hasText", Json.bool true)]
    textAnalysis := Json.null
    metadataAnalysis := Json.null }

/-- Stored entity with the newer timestamp (fixture). -/
def entNew : Entity :=
  { partitionKey := "PDFAnalysis"
    rowKey := "r2"
    fileName := "b.pdf"
    blobPath := "pdf/b.pdf"
    analyzedAt := "2024-01-02T00:00:00"
    summary := Json.obj [("format", Json.str "Unknown"), ("hasText", Json.bool false)]
    textAnalysis := Json.null
    metadataAnalysis := Json.null }

/-- A stored entity used on the single-result query path (fixture). -/
def entStored : Entity :=
  { partitionKey := "PDFAnalysis"
    rowKey := "r9"
    fileName := "c.pdf"
    blobPath := "pdf/c.pdf"
    analyzedAt := "2024-03-03T00:00:00"
    summary := Json.obj [("format", Json.str "Unknown"), ("hasText", Json.bool true)]
    textAnalysis := Json.null
    metadataAnalysis := Json.null }

theorem runTasks_slot (f : Fin 4 → Json) (order : List (Fin 4))
    (slots : Fin 4 → Option Json) (i : Fin 4)
    (h : i ∈ order ∨ slots i = some (f i)) :
    runTasks f order slots i = some (f i) := by
  induction order generalizing slots with
  | nil =>
    rcases h with h | h
    · exact absurd h (List.not_mem_nil i)
    · exact h
  | cons j rest ih =>
    apply ih
    by_cases hij : i = j
    · subst hij
      right
      simp [runTasks]
    · rcases h with h | h
      · rcases List.mem_cons.mp h with h | h
        · exact absurd h hij
        · exact Or.inl h
      · right
        simpa [hij] using h

/-- C2: for every run input and every completion order in which all four
analysis tasks finish, the fan-in collects exactly four results and the
list is in the fixed fan-out order [text, metadata, statistics,
sensitive-pattern], independent of the completion order. -/
theorem fanIn_fixed_order (findall : RegexKind → String → List String)
    (parseResult : Except String PdfDoc) (order : List (Fin 4))
    (h : ∀ i : Fin 4, i ∈ order) :
    pdf_analyzer_orchestrator_fanIn findall parseResult order =
      [extract_text parseResult, extract_metadata parseResult,
       analyze_statistics parseResult, detect_sensitive_data findall parseResult] ∧
    (pdf_analyzer_orchestrator_fanIn findall parseResult order).length = 4 := by
  have h0 := runTasks_slot (analysisActivities findall parseResult) order
    (fun _ => none) 0 (Or.inl (h 0))
  have h1 := runTasks_slot (analysisActivities findall parseResult) order
    (fun _ => none) 1 (Or.inl (h 1))
  have h2 := runTasks_slot (analysisActivities findall parseResult) order
    (fun _ => none) 2 (Or.inl (h 2))
  have h3 := runTasks_slot (analysisActivities findall parseResult) order
    (fun _ => none) 3 (Or.inl (h 3))
  constructor
  · simp [pdf_analyzer_orchestrator_fanIn, task_all, h0, h1, h2, h3,
      analysisActivities]
  · simp [pdf_analyzer_orchestrator_fanIn, task_all]

theorem fanIn_fixed_order_witness :
    pdf_analyzer_orchestrator_fanIn noFindall (Except.error "bad pdf") [2, 0, 3, 1] =
      [extract_text (Except.error "bad pdf"),
       extract_metadata (Except.error "bad pdf"),
       analyze_statistics (Except.error "bad pdf"),
       detect_sensitive_data noFindall (Except.error "bad pdf")] ∧
    (pdf_analyzer_orchestrator_fanIn noFindall (Except.error "bad pdf") [2, 0, 3, 1]).length = 4 :=
  fanIn_fixed_order noFindall (Except.error "bad pdf") [2, 0, 3, 1] (by decide)

/-- C3: when parsing faults with message `msg` (non-empty, as the parse
library's exception text), each of the four analysis tasks returns its
kind-specific zero/empty-shaped payload whose `error` field carries
`msg`; every task is a total function of the parse outcome, so no
exception escapes its boundary. -/
theorem analysis_tasks_fault_shape (msg : String)
    (findall : RegexKind → String → List String) (h : msg ≠ "") :
    extract_text (Except.error msg) =
      Json.obj [("hasText", Json.bool false), ("extractedText", Json.str ""),
        ("confidence", Json.num 0), ("error", Json.str msg)] ∧
    extract_metadata (Except.error msg) =
      Json.obj [("title", Json.str ""), ("author", Json.str ""),
        ("error", Json.str msg)] ∧
    analyze_statistics (Except.error msg) =
      Json.obj [("page_count", Json.num 0), ("word_count", Json.num 0),
        ("avg_words_per_page", Json.num 0),
        ("estimated_reading_time_min", Json.num 0), ("error", Json.str msg)] ∧
    detect_sensitive_data findall (Except.error msg) =
      Json.obj [("emails", Json.arr []), ("phones", Json.arr []),
        ("urls", Json.arr []), ("dates", Json.arr []),
        ("error", Json.str msg)] ∧
    msg ≠ "" :=
  ⟨rfl, rfl, rfl, rfl, h⟩

theorem analysis_tasks_fault_shape_witness :
    extract_text (Except.error "EOF marker not found") =
      Json.obj [("hasText", Json.bool false), ("extractedText", Json.str ""),
        ("confidence", Json.num 0), ("error", Json.str "EOF marker not found")] ∧
    extract_metadata (Except.error "EOF marker not found") =
      Json.obj [("title", Json.str ""), ("author", Json.str ""),
        ("error", Json.str "EOF marker not found")] ∧
    analyze_statistics (Except.error "EOF marker not found") =
      Json.obj [("page_count", Json.num 0), ("word_count", Json.num 0),
        ("avg_words_per_page", Json.num 0),
        ("estimated_reading_time_min", Json.num 0),
        ("error", Json.str "EOF marker not found")] ∧
    detect_sensitive_data noFindall (Except.error "EOF marker not found") =
      Json.obj [("emails", Json.arr []), ("phones", Json.arr []),
        ("urls", Json.arr []), ("dates", Json.arr []),
        ("error", Json.str "EOF marker not found")] ∧
    "EOF marker not found" ≠ "" :=
  analysis_tasks_fault_shape "EOF marker not found" noFindall (by decide)

/-- C7: on every successfully parsed document, the statistics activity
reports `avg_words_per_page` as word count over page count with the
division guarded to 0 when the page count is 0 (the activity is a total
function, so the guarded division cannot fault), and
`estimated_reading_time_min` as word count over 200. -/
theorem analyze_statistics_formulas (doc : PdfDoc) :
    jsonGetD (analyze_statistics (Except.ok doc)) "avg_words_per_page" Json.null =
      Json.num (if statsPageCount doc = 0 then 0
        else (statsWordCount doc : ℚ) / (statsPageCount doc : ℚ)) ∧
    jsonGetD (analyze_statistics (Except.ok doc)) "estimated_reading_time_min" Json.null =
      Json.num ((statsWordCount doc : ℚ) / 200) ∧
    jsonGetD (analyze_statistics (Except.ok doc)) "word_count" Json.null =
      Json.num (statsWordCount doc) ∧
    jsonGetD (analyze_statistics (Except.ok doc)) "page_count" Json.null =
      Json.num (statsPageCount doc) := by
  refine ⟨?_, rfl, rfl, rfl⟩
  by_cases hpc : statsPageCount doc = 0
  · simp [analyze_statistics, jsonGetD, hpc]
  · simp [analyze_statistics, jsonGetD, hpc]

theorem extract_metadata_no_format_key (parseResult : Except String PdfDoc) :
    jsonGetD (extract_metadata parseResult) "format" (Json.str "Unknown") =
      Json.str "Unknown" := by
  cases parseResult with
  | error e => rfl
  | ok doc =>
    obtain ⟨pages, meta⟩ := doc
    cases meta with
    | none => rfl
    | some m =>
      cases hc : m.creation_date with
      | none =>
        simp only [extract_metadata, hc]
        rfl
      | some cd =>
        cases hm : m.modification_date with
        | none =>
          simp only [extract_metadata, hc, hm]
          rfl
        | some md =>
          simp only [extract_metadata, hc, hm]
          rfl

/-- C9: no metadata-task output (success or failure shape) carries a
`format` key, so for every report the reducer builds from an actual
metadata-task output the summary's `format` is "Unknown", and the
summary persisted in the stored entity carries `format` "Unknown" too. -/
theorem summary_format_unknown (freshId nowIso blob_name : String)
    (parseResult : Except String PdfDoc) (text st sd : Json) :
    jsonGetD (generate_report freshId nowIso blob_name text
        (extract_metadata parseResult) st sd).summary "format" Json.null =
      Json.str "Unknown" ∧
    jsonGetD (entityOf (generate_report freshId nowIso blob_name text
        (extract_metadata parseResult) st sd)).summary "format" Json.null =
      Json.str "Unknown" := by
  have hfmt := extract_metadata_no_format_key parseResult
  have h1 : jsonGetD (generate_report freshId nowIso blob_name text
      (extract_metadata parseResult) st sd).summary "format" Json.null =
      jsonGetD (extract_metadata parseResult) "format" (Json.str "Unknown") := rfl
  exact ⟨h1.trans hfmt, h1.trans hfmt⟩

/-- C10: whenever the document parses and its metadata record is present
but the creation date or the modification date is absent, the
`isoformat()` call raises and the metadata task returns the
failure-shaped payload (empty title and author plus an error), even
though title, author, creator and producer were readable. -/
theorem extract_metadata_missing_date (doc : PdfDoc) (m : PdfMeta)
    (hm : doc.meta = some m)
    (hd : m.creation_date = none ∨ m.modification_date = none) :
    extract_metadata (Except.ok doc) =
      Json.obj [("title", Json.str ""), ("author", Json.str ""),
        ("error", Json.str noneAttrError)] ∧
    noneAttrError ≠ "" := by
  constructor
  · obtain ⟨pages, meta⟩ := doc
    cases hm
    rcases hd with h | h
    · simp [extract_metadata, h, metaFailure]
    · cases hc : m.creation_date with
      | none => simp [extract_metadata, hc, metaFailure]
      | some cd => simp [extract_metadata, hc, h, metaFailure]
  · decide

theorem extract_metadata_missing_date_witness :
    extract_metadata (Except.ok
      { pages := []
        meta := some
          { title := some "T", author := some "A", creator := some "C"
            producer := some "P", creation_date := none
            modification_date := some "2024-01-02T00:00:00" } }) =
      Json.obj [("title", Json.str ""), ("author", Json.str ""),
        ("error", Json.str noneAttrError)] ∧
    noneAttrError ≠ "" :=
  extract_metadata_missing_date _ _ rfl (Or.inl rfl)

/-- C4 counterexample: `generate_report` draws `str(uuid.uuid4())` and
`datetime.utcnow().isoformat()` inside its own body, so two invocations
on identical analysis results and document path, whose internal draws
differ, produce reports that are not structurally equal: the claim that
the identifier and timestamp are supplied by the caller rather than
generated inside the reducer fails on the code. -/
theorem generate_report_fresh_cex :
    (generate_report "id-a" "2024-05-01T10:00:00" "pdf/doc.pdf"
      (extract_text (Except.error "boom")) (extract_metadata (Except.error "boom"))
      (analyze_statistics (Except.error "boom"))
      (detect_sensitive_data noFindall (Except.error "boom"))).id = "id-a" ∧
    (generate_report "id-b" "2024-05-01T10:00:05" "pdf/doc.pdf"
      (extract_text (Except.error "boom")) (extract_metadata (Except.error "boom"))
      (analyze_statistics (Except.error "boom"))
      (detect_sensitive_data noFindall (Except.error "boom"))).id = "id-b" ∧
    generate_report "id-a" "2024-05-01T10:00:00" "pdf/doc.pdf"
      (extract_text (Except.error "boom")) (extract_metadata (Except.error "boom"))
      (analyze_statistics (Except.error "boom"))
      (detect_sensitive_data noFindall (Except.error "boom")) ≠
    generate_report "id-b" "2024-05-01T10:00:05" "pdf/doc.pdf"
      (extract_text (Except.error "boom")) (extract_metadata (Except.error "boom"))
      (analyze_statistics (Except.error "boom"))
      (detect_sensitive_data noFindall (Except.error "boom")) :=
  ⟨rfl, rfl, fun h => absurd (congrArg Report.id h) (by decide)⟩

/-- C4 amended: the reduce step is deterministic in everything except
the identifier and timestamp it draws internally — two invocations with
the same four analysis results and document path agree on file name,
blob path, all four analysis payloads and the summary; only `id` and
`analyzedAt` (the internal `uuid4`/`utcnow` draws) can differ. -/
theorem generate_report_deterministic_core (id1 t1 id2 t2 blob_name : String)
    (text metadata statistics sensitive_data : Json) :
    reportCore (generate_report id1 t1 blob_name text metadata statistics sensitive_data) =
      reportCore (generate_report id2 t2 blob_name text metadata statistics sensitive_data) :=
  rfl

theorem sameKey_self (e : Entity) : sameKey e e = true := by
  simp [sameKey]

theorem sameKey_overwrite (e x : Entity) :
    (if sameKey e (if sameKey e x then e else x) then e
      else if sameKey e x then e else x) = if sameKey e x then e else x := by
  cases h : sameKey e x with
  | true => simp [sameKey_self]
  | false => simp [h]

theorem upsertEntity_idem (t : List Entity) (e : Entity) :
    upsertEntity (upsertEntity t e) e = upsertEntity t e := by
  unfold upsertEntity
  by_cases h : t.any (sameKey e) = true
  · rw [if_pos h]
    have hmem : ∃ x ∈ t, sameKey e x = true := List.any_eq_true.mp h
    have hany : (t.map (fun x => if sameKey e x then e else x)).any (sameKey e) = true := by
      obtain ⟨x, hx, hkey⟩ := hmem
      refine List.any_eq_true.mpr ⟨e, ?_, sameKey_self e⟩
      refine List.mem_map.mpr ⟨x, hx, ?_⟩
      simp [hkey]
    rw [if_pos hany, List.map_map]
    apply List.map_congr_left
    intro x _
    exact sameKey_overwrite e x
  · rw [if_neg h]
    have hall : ∀ x ∈ t, sameKey e x = false := by
      intro x hx
      by_contra hc
      exact h (List.any_eq_true.mpr ⟨x, hx, eq_true_of_ne_false hc⟩)
    have hany : (t ++ [e]).any (sameKey e) = true :=
      List.any_eq_true.mpr ⟨e, List.mem_append_right t (List.mem_singleton_self e), sameKey_self e⟩
    rw [if_pos hany, List.map_append]
    congr 1
    · have : ∀ x ∈ t, (if sameKey e x then e else x) = x := fun x hx => by
        simp [hall x hx]
      rw [List.map_congr_left this]
      exact List.map_id t
    · simp [sameKey_self]

/-- C5: the persist step is idempotent — running `store_results` twice
with the same report (whether storage succeeds, upserting under the
fixed partition key and the report-id row key, or faults, leaving the
table untouched) yields the same table state as running it once: no
duplicate row is ever created. -/
theorem store_results_idempotent (storageFault : Option String)
    (t : List Entity) (r : Report) :
    (store_results storageFault (store_results storageFault t r).1 r).1 =
      (store_results storageFault t r).1 := by
  cases storageFault with
  | some e => rfl
  | none => exact upsertEntity_idem t (entityOf r)

theorem find_map_overwrite (t : List Entity) (e : Entity)
    (h : t.any (sameKey e) = true) :
    (t.map (fun x => if sameKey e x then e else x)).find? (sameKey e) = some e := by
  induction t with
  | nil => simp at h
  | cons x xs ih =>
    cases hx : sameKey e x with
    | true => simp [List.find?, hx, sameKey_self]
    | false =>
      have h2 : xs.any (sameKey e) = true := by simpa [hx] using h
      simpa [List.find?, hx] using ih h2

theorem find_append_new (t : List Entity) (e : Entity)
    (h : ∀ x ∈ t, sameKey e x = false) :
    (t ++ [e]).find? (sameKey e) = some e := by
  induction t with
  | nil => simp [List.find?, sameKey_self]
  | cons x xs ih =>
    have hx := h x (List.mem_cons_self x xs)
    have ih2 := ih (fun y hy => h y (List.mem_cons_of_mem x hy))
    simpa [List.find?, hx] using ih2

theorem find_upsert (t : List Entity) (e : Entity) :
    (upsertEntity t e).find? (sameKey e) = some e := by
  unfold upsertEntity
  by_cases h : t.any (sameKey e) = true
  · rw [if_pos h]
    exact find_map_overwrite t e h
  · rw [if_neg h]
    apply find_append_new
    intro x hx
    by_contra hc
    exact h (List.any_eq_true.mpr ⟨x, hx, eq_true_of_ne_false hc⟩)

theorem findEntity_upsert (t : List Entity) (r : Report) :
    findEntity (upsertEntity t (entityOf r)) r.id = some (entityOf r) :=
  find_upsert t (entityOf r)

/-- C1 counterexample: `store_results` only serializes the summary and
the text and metadata analyses into the entity (function_app.py:340-350),
so reading the persisted report back yields an `analyses` object with
keys ["text", "metadata"] only — the statistics and sensitive-pattern
payloads of the original report are gone, and the read-back value is not
structurally equal to the original report dict. -/
theorem store_get_roundtrip_cex :
    jsonKeys (jsonGetD (get_results_single none none
        (store_results none [] sampleReport).1 "rid-1").body "analyses" Json.null) =
      ["text", "metadata"] ∧
    jsonKeys (jsonGetD (reportJson sampleReport) "analyses" Json.null) =
      ["text", "metadata", "statistics", "sensitive_data"] ∧
    (get_results_single none none (store_results none [] sampleReport).1 "rid-1").body ≠
      reportJson sampleReport := by
  refine ⟨rfl, rfl, fun h => ?_⟩
  have h2 := congrArg (fun j => jsonKeys (jsonGetD j "analyses" Json.null)) h
  exact absurd h2 (by decide)

/-- C1 amended: persisting a report and reading it back by the returned
identifier succeeds (status 200) and reconstructs the report's
identifier, file name, blob path, timestamp, summary and its text and
metadata analysis payloads; the read-back `analyses` object contains
exactly the text and metadata payloads — the statistics and
sensitive-pattern payloads are not part of the persisted entity
(round-trip modulo the `json.dumps`/`json.loads` encode/decode pair,
which the entity model factors out). -/
theorem store_get_roundtrip (t : List Entity) (r : Report) :
    jsonGetD (store_results none t r).2 "id" Json.null = Json.str r.id ∧
    get_results_single none none (store_results none t r).1 r.id =
      { status := 200, body := retrievedJson (entityOf r) } ∧
    retrievedJson (entityOf r) =
      Json.obj [
        ("id", Json.str r.id),
        ("fileName", Json.str r.fileName),
        ("blobPath", Json.str r.blobPath),
        ("analyzedAt", Json.str r.analyzedAt),
        ("summary", r.summary),
        ("analyses", Json.obj [("text", r.text), ("metadata", r.metadata)])] ∧
    jsonKeys (jsonGetD (retrievedJson (entityOf r)) "analyses" Json.null) =
      ["text", "metadata"] := by
  refine ⟨rfl, ?_, rfl, rfl⟩
  show get_results_single none none (upsertEntity t (entityOf r)) r.id = _
  simp [get_results_single, findEntity_upsert t r]

theorem pySlice_sublist {α : Type} (xs : List α) (n : Int) :
    (pySlice xs n).Sublist xs := by
  unfold pySlice
  split
  · exact List.take_sublist _ _
  · exact List.take_sublist _ _

theorem pySlice_length_le {α : Type} (xs : List α) (n : Int) (h : 0 ≤ n) :
    ((pySlice xs n).length : Int) ≤ n := by
  unfold pySlice
  rw [if_pos h]
  have hlen : (xs.take n.toNat).length ≤ n.toNat := by
    simp [List.length_take]
  calc ((xs.take n.toNat).length : Int) ≤ (n.toNat : Int) := by exact_mod_cast hlen
    _ = n := Int.toNat_of_nonneg h

theorem listResults_sorted (t : List Entity) (p : Option Int) :
    List.Sorted newerFirst (listResults t p) :=
  (List.sorted_insertionSort newerFirst
    ((queryPartition t).map toListItem)).sublist (pySlice_sublist _ _)

/-- C6 amended: for every store state and every non-negative limit the
collection listing returns at most `limit` entries sorted by analysis
timestamp descending, and an absent limit defaults to 10; a negative
limit (which Python slicing interprets as dropping entries from the
end) escapes the at-most-limit bound, so the bound is stated for
`0 ≤ limit`. -/
theorem listResults_spec (t : List Entity) (p : Option Int)
    (h : 0 ≤ p.getD 10) :
    ((listResults t p).length : Int) ≤ p.getD 10 ∧
    List.Sorted newerFirst (listResults t p) ∧
    listResults t none = listResults t (some 10) :=
  ⟨pySlice_length_le _ _ h, listResults_sorted t p, rfl⟩

theorem listResults_spec_witness :
    ((listResults [entOld, entNew] (some 1)).length : Int) ≤ (some (1 : Int)).getD 10 ∧
    List.Sorted newerFirst (listResults [entOld, entNew] (some 1)) ∧
    listResults [entOld, entNew] none = listResults [entOld, entNew] (some 10) :=
  listResults_spec [entOld, entNew] (some 1) (by decide)

/-- C6 counterexample: with a stored report and `limit = -1` (a value
`int(req.params.get("limit", "10"))` accepts), `results[:limit]` drops
the trailing entry and returns zero results, which is still more than
the limit: the at-most-limit claim fails for negative limit values. -/
theorem listResults_negative_limit_cex :
    (listResults [entOld] (some (-1))).length = 0 ∧
    ¬ (((listResults [entOld] (some (-1))).length : Int) ≤ -1) := by
  constructor
  · rfl
  · decide

/-- C8 counterexample: the single-result path wraps `get_entity` and the
JSON decoding in an inner `except Exception` that answers 404
(function_app.py:416-421), so a read fault that is not a not-found —
here a connection fault injected while the identifier is present in the
store — yields 404, not the 500 the claim requires, and the 404 outcome
is not equivalent to absence of the identifier. -/
theorem get_results_single_fault_cex :
    (get_results_single none (some "ConnectionError") [entStored] "r9").status = 404 ∧
    (findEntity [entStored] "r9").isSome = true ∧
    (get_results_single none (some "ConnectionError") [entStored] "r9").status ≠ 500 := by
  refine ⟨rfl, rfl, ?_⟩
  decide

/-- C8 amended: on the single-result path a missing identifier yields
404, but so does every fault raised inside the lookup/decode block
(the inner handler converts any exception to 404); a 500 response
arises exactly when acquiring the table client fails before the
lookup; only in the fault-free case is 404 equivalent to the
identifier being absent from the store. -/
theorem get_results_single_spec (clientFault readFault : Option String)
    (t : List Entity) (id : String) :
    (clientFault = none → readFault = none →
      ((get_results_single clientFault readFault t id).status = 404 ↔
        findEntity t id = none)) ∧
    (clientFault = none → readFault ≠ none →
      (get_results_single clientFault readFault t id).status = 404) ∧
    ((get_results_single clientFault readFault t id).status = 500 ↔
      clientFault ≠ none) := by
  cases clientFault with
  | some e => simp [get_results_single]
  | none =>
    cases readFault with
    | some e => simp [get_results_single]
    | none =>
      cases hf : findEntity t id with
      | none => simp [get_results_single, hf]
      | some ent => simp [get_results_single, hf]

theorem get_results_single_spec_witness :
    (get_results_single none none [] "missing").status = 404 :=
  ((get_results_single_spec none none [] "missing").1 rfl rfl).mpr rfl
